import Mathlib

/-!
Shallow embedding of `skimage/measure/simple_metrics.py`: the three
full-reference image-quality metrics `mse`, `nrmse`, `psnr` and their two
helpers `_assert_compatible` and `_as_floats`.

Modelling choices:
* An image (a numpy ndarray) is a dtype tag, a shape, and its flattened
  element data.  Element values are rationals, modelling the exact real
  value held by the array; `float64` arithmetic is modelled by exact
  rational/real arithmetic.
* Every `ValueError` / `KeyError` the module can raise is a constructor of
  `Err`, following the error taxonomy of the spec; the Python message is
  carried where a claim talks about it.
* `np.sqrt` and `np.log10` are modelled by `Real.sqrt` and `Real.logb 10`,
  so `nrmse` and `psnr` produce real numbers.
-/

namespace SimpleMetrics

/-- Dtype tags for the element types relevant to the module.  `float16`
models a numeric dtype that has no entry in the dtype range table. -/
inductive Dtype where
  | uint8
  | uint16
  | int8
  | int16
  | float64
  | float16
  deriving DecidableEq, Repr

/-- An image array: element type tag, shape, and flattened element data. -/
structure Img where
  dtype : Dtype
  shape : List Nat
  data : List ℚ
  deriving DecidableEq, Repr

/-- Error taxonomy of the spec.  In the Python source all of these are
raised as `ValueError` (or `KeyError` for the dtype-table lookup); the
string is the Python error message where one exists. -/
inductive Err where
  | incompatibleInputs (msg : String)
  | unsupportedNormMode (msg : String)
  | unknownDtype
  | outOfRange (msg : String)
  deriving DecidableEq, Repr

/-- Modelled from the spec: the Dtype Range Table (`dtype_range` from
`skimage/util/dtype.py`, which is not part of this repository snapshot).
It maps each supported element type to its theoretical (minimum, maximum)
representable pair: unsigned and signed integers of common widths, and
floating point in the canonical [-1, 1] convention.  A dtype the table
does not support has no entry. -/
def dtype_range : Dtype → Option (ℚ × ℚ)
  | .uint8 => some (0, 255)
  | .uint16 => some (0, 65535)
  | .int8 => some (-128, 127)
  | .int16 => some (-32768, 32767)
  | .float64 => some (-1, 1)
  | .float16 => none

/-- Raise an error if the shape and dtype do not match
(`_assert_compatible`). -/
def assert_compatible (X Y : Img) : Except Err Unit :=
  if X.dtype ≠ Y.dtype then
    Except.error (Err.incompatibleInputs ("Input images must have the same dtype."))
  else if X.shape ≠ Y.shape then
    Except.error (Err.incompatibleInputs ("Input images must have the same dimensions."))
  else
    Except.ok ()

/-- Promote X, Y to floating point precision (`_as_floats`).  `astype`
re-tags the array as `float64`; the numeric values are unchanged. -/
def as_floats (X Y : Img) : Img × Img :=
  (if X.dtype ≠ Dtype.float64 then ⟨Dtype.float64, X.shape, X.data⟩ else X,
   if Y.dtype ≠ Dtype.float64 then ⟨Dtype.float64, Y.shape, Y.data⟩ else Y)

/-- Model of `ndarray.mean()`: the element sum divided by the count. -/
def mean (l : List ℚ) : ℚ := l.sum / l.length

/-- Model of `ndarray.max()` over the flattened data. -/
def listMax : List ℚ → ℚ
  | [] => 0
  | x :: xs => xs.foldl max x

/-- Model of `ndarray.min()` over the flattened data. -/
def listMin : List ℚ → ℚ
  | [] => 0
  | x :: xs => xs.foldl min x

/-- ASCII lowercasing of one character, as Python `str.lower` acts on the
ASCII mode strings involved here. -/
def lowerChar (c : Char) : Char :=
  if 65 ≤ c.toNat ∧ c.toNat ≤ 90 then Char.ofNat (c.toNat + 32) else c

/-- Python `str.lower` on the mode string (ASCII). -/
def strLower (s : String) : String := ⟨s.data.map lowerChar⟩

/-- The arithmetic `np.square(X - Y).mean()` performed by `mse` on the
flattened data of the two (same-shape) arrays. -/
def mse_vals (xs ys : List ℚ) : ℚ :=
  mean ((xs.zip ys).map fun p => (p.1 - p.2) ^ 2)

/-- Compute the mean-squared error between two images (`mse`). -/
def mse (X Y : Img) : Except Err ℚ := do
  let _ ← assert_compatible X Y
  let P := as_floats X Y
  pure (mse_vals P.1.data P.2.data)

/-- Compute the normalized root mean-squared error between two images
(`nrmse`).  The Python signature defaults `norm_type` to `Euclidean`; here
the mode string is always passed explicitly. -/
noncomputable def nrmse (im_true im_test : Img) (norm_type : String) : Except Err ℝ := do
  let _ ← assert_compatible im_true im_test
  let P := as_floats im_true im_test
  let nt := strLower norm_type
  let denom : ℝ ←
    if nt = "euclidean" then
      pure (Real.sqrt ((mean (P.1.data.map fun x => x * x) : ℚ) : ℝ))
    else if nt = "min-max" then
      pure (((listMax P.1.data - listMin P.1.data : ℚ) : ℝ))
    else if nt = "mean" then
      pure (((mean P.1.data : ℚ) : ℝ))
    else
      throw (Err.unsupportedNormMode ("Unsupported norm_type"))
  match mse P.1 P.2 with
  | Except.error e => throw e
  | Except.ok m => pure (Real.sqrt ((m : ℚ) : ℝ) / denom)

/-- The Python message of the `OutOfRangeError` raised by `psnr`. -/
def out_of_range_msg : String :=
  "im_true has intensity values outside the range expected for its data type.  Please manually specify the dynamic_range"

/-- Compute the peak signal to noise ratio for an image (`psnr`).  The
Python signature defaults `dynamic_range` to `None`; here the option is
always passed explicitly. -/
noncomputable def psnr (im_true im_test : Img) (dynamic_range : Option ℚ) : Except Err ℝ := do
  let _ ← assert_compatible im_true im_test
  let dr : ℚ ←
    match dynamic_range with
    | some d => pure d
    | none =>
      match dtype_range im_true.dtype with
      | none => throw Err.unknownDtype
      | some r =>
        let true_min := listMin im_true.data
        let true_max := listMax im_true.data
        if true_max > r.2 ∨ true_min < r.1 then
          throw (Err.outOfRange out_of_range_msg)
        else if 0 ≤ true_min then
          pure r.2
        else
          pure (r.2 - r.1)
  let P := as_floats im_true im_test
  match mse P.1 P.2 with
  | Except.error e => throw e
  | Except.ok m => pure (10 * Real.logb 10 (((dr : ℚ) : ℝ) ^ 2 / ((m : ℚ) : ℝ)))

/-! Basic unfolding lemmas shared by the claim proofs. -/

theorem ok_bind {α β : Type} (a : α) (k : α → Except Err β) :
    (Except.ok a >>= k) = k a := rfl

theorem error_bind {α β : Type} (e : Err) (k : α → Except Err β) :
    ((Except.error e : Except Err α) >>= k) = Except.error e := rfl

theorem assert_compatible_ok {X Y : Img} (hd : X.dtype = Y.dtype)
    (hs : X.shape = Y.shape) : assert_compatible X Y = Except.ok () := by
  simp [assert_compatible, hd, hs]

theorem as_floats_fst (X Y : Img) :
    (as_floats X Y).1 = ⟨Dtype.float64, X.shape, X.data⟩ := by
  unfold as_floats
  cases X with
  | mk d s t =>
    by_cases hd : d = Dtype.float64 <;> simp [hd]

theorem as_floats_snd (X Y : Img) :
    (as_floats X Y).2 = ⟨Dtype.float64, Y.shape, Y.data⟩ := by
  unfold as_floats
  cases Y with
  | mk d s t =>
    by_cases hd : d = Dtype.float64 <;> simp [hd]

theorem mse_ok {X Y : Img} (hd : X.dtype = Y.dtype) (hs : X.shape = Y.shape) :
    mse X Y = Except.ok (mse_vals X.data Y.data) := by
  unfold mse
  rw [assert_compatible_ok hd hs, ok_bind]
  show Except.ok (mse_vals (as_floats X Y).1.data (as_floats X Y).2.data) = _
  rw [as_floats_fst, as_floats_snd]

theorem throw_eq {α : Type} (e : Err) : (throw e : Except Err α) = Except.error e := rfl

theorem assert_compatible_error {X Y : Img}
    (h : X.dtype ≠ Y.dtype ∨ X.shape ≠ Y.shape) :
    ∃ s, assert_compatible X Y = Except.error (Err.incompatibleInputs s) := by
  unfold assert_compatible
  by_cases hd : X.dtype = Y.dtype
  · rcases h with h | h
    · exact absurd hd h
    · exact ⟨"Input images must have the same dimensions.", by simp [hd, h]⟩
  · exact ⟨"Input images must have the same dtype.", by simp [hd]⟩

theorem zip_sq_sum (xs ys : List ℚ) (h : xs.length = ys.length) :
    ((xs.zip ys).map fun p => (p.1 - p.2) ^ 2).sum =
      ∑ i ∈ Finset.range xs.length, (xs.getD i 0 - ys.getD i 0) ^ 2 := by
  induction xs generalizing ys with
  | nil => simp
  | cons a xs ih =>
    cases ys with
    | nil => simp at h
    | cons b ys =>
      simp only [List.zip_cons_cons, List.map_cons, List.sum_cons, List.length_cons]
      rw [Finset.sum_range_succ']
      simp only [List.getD_cons_succ, List.getD_cons_zero]
      rw [ih ys (by simpa using h)]
      ring

theorem mse_vals_eq_sum (xs ys : List ℚ) (h : xs.length = ys.length) :
    mse_vals xs ys =
      (∑ i ∈ Finset.range xs.length, (xs.getD i 0 - ys.getD i 0) ^ 2) /
        (xs.length : ℚ) := by
  unfold mse_vals mean
  rw [zip_sq_sum xs ys h, List.length_map, List.length_zip, h, Nat.min_self]

theorem zip_sq_comm (xs ys : List ℚ) :
    ((xs.zip ys).map fun p => (p.1 - p.2) ^ 2) =
      ((ys.zip xs).map fun p => (p.1 - p.2) ^ 2) := by
  induction xs generalizing ys with
  | nil => cases ys <;> simp
  | cons a xs ih =>
    cases ys with
    | nil => simp
    | cons b ys =>
      simp only [List.zip_cons_cons, List.map_cons, List.cons.injEq]
      exact ⟨by ring, ih ys⟩

theorem mse_ok_inv {X Y : Img} {m : ℚ} (hm : mse X Y = Except.ok m) :
    X.dtype = Y.dtype ∧ X.shape = Y.shape ∧ m = mse_vals X.data Y.data := by
  by_cases hd : X.dtype = Y.dtype
  · by_cases hs : X.shape = Y.shape
    · rw [mse_ok hd hs] at hm
      exact ⟨hd, hs, (Except.ok.inj hm).symm⟩
    · obtain ⟨s, hse⟩ := assert_compatible_error (X := X) (Y := Y) (Or.inr hs)
      unfold mse at hm
      rw [hse, error_bind] at hm
      exact Except.noConfusion hm
  · obtain ⟨s, hse⟩ := assert_compatible_error (X := X) (Y := Y) (Or.inl hd)
    unfold mse at hm
    rw [hse, error_bind] at hm
    exact Except.noConfusion hm

theorem mse_vals_self (xs : List ℚ) : mse_vals xs xs = 0 := by
  unfold mse_vals mean
  have h : ((xs.zip xs).map fun p => (p.1 - p.2) ^ 2).sum = 0 := by
    induction xs with
    | nil => simp
    | cons a xs ih => simpa using ih
  rw [h]
  simp

theorem mse_float (R T : Img) (hs : R.shape = T.shape) :
    mse ⟨Dtype.float64, R.shape, R.data⟩ ⟨Dtype.float64, T.shape, T.data⟩ =
      Except.ok (mse_vals R.data T.data) :=
  mse_ok rfl hs

theorem nrmse_euclidean (R T : Img) (hd : R.dtype = T.dtype)
    (hs : R.shape = T.shape) {mode : String} (h : strLower mode = "euclidean") :
    nrmse R T mode = Except.ok (Real.sqrt ((mse_vals R.data T.data : ℚ) : ℝ) /
      Real.sqrt ((mean (R.data.map fun x => x * x) : ℚ) : ℝ)) := by
  unfold nrmse
  rw [assert_compatible_ok hd hs, ok_bind]
  simp only [as_floats_fst, as_floats_snd, h, reduceIte, pure_bind]
  rw [mse_float R T hs]
  rfl

theorem nrmse_min_max (R T : Img) (hd : R.dtype = T.dtype)
    (hs : R.shape = T.shape) {mode : String} (h : strLower mode = "min-max") :
    nrmse R T mode = Except.ok (Real.sqrt ((mse_vals R.data T.data : ℚ) : ℝ) /
      ((listMax R.data - listMin R.data : ℚ) : ℝ)) := by
  unfold nrmse
  rw [assert_compatible_ok hd hs, ok_bind]
  simp only [as_floats_fst, as_floats_snd, h, reduceIte, pure_bind]
  rw [if_neg (show ("min-max" : String) ≠ "euclidean" by decide)]
  rw [mse_float R T hs]
  rfl

theorem nrmse_mean_mode (R T : Img) (hd : R.dtype = T.dtype)
    (hs : R.shape = T.shape) {mode : String} (h : strLower mode = "mean") :
    nrmse R T mode = Except.ok (Real.sqrt ((mse_vals R.data T.data : ℚ) : ℝ) /
      ((mean R.data : ℚ) : ℝ)) := by
  unfold nrmse
  rw [assert_compatible_ok hd hs, ok_bind]
  simp only [as_floats_fst, as_floats_snd, h, reduceIte, pure_bind]
  rw [if_neg (show ("mean" : String) ≠ "euclidean" by decide)]
  rw [if_neg (show ("mean" : String) ≠ "min-max" by decide)]
  rw [mse_float R T hs]
  rfl

theorem nrmse_unsupported (R T : Img) (hd : R.dtype = T.dtype)
    (hs : R.shape = T.shape) {mode : String}
    (h1 : strLower mode ≠ "euclidean") (h2 : strLower mode ≠ "min-max")
    (h3 : strLower mode ≠ "mean") :
    nrmse R T mode =
      Except.error (Err.unsupportedNormMode ("Unsupported norm_type")) := by
  unfold nrmse
  rw [assert_compatible_ok hd hs, ok_bind]
  simp only [as_floats_fst, as_floats_snd, if_neg h1, if_neg h2, if_neg h3,
    throw_eq, error_bind]

/-- C1: for arrays of identical element type and shape (hence equally many
elements), `mse` returns the arithmetic mean, over every element position,
of the squared difference of the two values at that position, as a single
scalar. -/
theorem mse_is_mean_of_squared_differences (X Y : Img)
    (hd : X.dtype = Y.dtype) (hs : X.shape = Y.shape)
    (hl : X.data.length = Y.data.length) :
    mse X Y = Except.ok
      ((∑ i ∈ Finset.range X.data.length,
          (X.data.getD i 0 - Y.data.getD i 0) ^ 2) / (X.data.length : ℚ)) := by
  rw [mse_ok hd hs, mse_vals_eq_sum X.data Y.data hl]

/-- Witness for C1 on the concrete spec scenario R = [[0,2],[2,0]],
T = [[0,0],[0,0]] with mse 2. -/
theorem mse_is_mean_of_squared_differences_witness :
    mse ⟨Dtype.uint8, [2, 2], [0, 2, 2, 0]⟩ ⟨Dtype.uint8, [2, 2], [0, 0, 0, 0]⟩ =
      Except.ok ((∑ i ∈ Finset.range 4,
        (List.getD [(0 : ℚ), 2, 2, 0] i 0 - List.getD [(0 : ℚ), 0, 0, 0] i 0) ^ 2) / (4 : ℚ)) :=
  mse_is_mean_of_squared_differences _ _ rfl rfl rfl

/-- C9: `mse` is symmetric in its two arguments on arrays of matching
dtype and shape. -/
theorem mse_symm (X Y : Img) (hd : X.dtype = Y.dtype) (hs : X.shape = Y.shape) :
    mse X Y = mse Y X := by
  rw [mse_ok hd hs, mse_ok hd.symm hs.symm]
  unfold mse_vals
  rw [zip_sq_comm]

/-- Witness for C9 at a concrete pair of images. -/
theorem mse_symm_witness :
    mse ⟨Dtype.uint8, [2], [1, 3]⟩ ⟨Dtype.uint8, [2], [2, 5]⟩ =
      mse ⟨Dtype.uint8, [2], [2, 5]⟩ ⟨Dtype.uint8, [2], [1, 3]⟩ :=
  mse_symm _ _ rfl rfl

/-- C4: on a dtype or shape mismatch, each of `mse`, `nrmse` (for every
mode) and `psnr` (for every dynamic-range argument) fails with an
IncompatibleInputsError raised by the entry-point compatibility check,
before any arithmetic on the data. -/
theorem incompatible_inputs_error (X Y : Img)
    (h : X.dtype ≠ Y.dtype ∨ X.shape ≠ Y.shape) :
    (∃ s, mse X Y = Except.error (Err.incompatibleInputs s)) ∧
    (∀ mode : String, ∃ s, nrmse X Y mode = Except.error (Err.incompatibleInputs s)) ∧
    (∀ dr : Option ℚ, ∃ s, psnr X Y dr = Except.error (Err.incompatibleInputs s)) := by
  obtain ⟨s, hs⟩ := assert_compatible_error h
  refine ⟨⟨s, ?_⟩, fun mode => ⟨s, ?_⟩, fun dr => ⟨s, ?_⟩⟩
  · unfold mse
    rw [hs, error_bind]
  · unfold nrmse
    rw [hs, error_bind]
  · unfold psnr
    rw [hs, error_bind]

/-- Witness for C4 at a concrete shape-mismatched pair. -/
theorem incompatible_inputs_error_witness :
    (∃ s, mse ⟨Dtype.uint8, [2], [1, 3]⟩ ⟨Dtype.uint8, [3], [2, 5, 7]⟩ =
        Except.error (Err.incompatibleInputs s)) ∧
    (∀ mode : String, ∃ s, nrmse ⟨Dtype.uint8, [2], [1, 3]⟩ ⟨Dtype.uint8, [3], [2, 5, 7]⟩ mode =
        Except.error (Err.incompatibleInputs s)) ∧
    (∀ dr : Option ℚ, ∃ s, psnr ⟨Dtype.uint8, [2], [1, 3]⟩ ⟨Dtype.uint8, [3], [2, 5, 7]⟩ dr =
        Except.error (Err.incompatibleInputs s)) :=
  incompatible_inputs_error _ _ (Or.inr (by decide))

/-- C5: for a compatible pair, `nrmse` fails with an UnsupportedNormModeError
exactly when the lower-cased mode string matches none of the three
recognized values, and mode EUCLIDEAN behaves identically to euclidean. -/
theorem nrmse_mode_error_iff (R T : Img) (hd : R.dtype = T.dtype)
    (hs : R.shape = T.shape) (mode : String) :
    ((∃ s, nrmse R T mode = Except.error (Err.unsupportedNormMode s)) ↔
      (strLower mode ≠ "euclidean" ∧ strLower mode ≠ "min-max" ∧
        strLower mode ≠ "mean")) ∧
    nrmse R T ("EUCLIDEAN") = nrmse R T ("euclidean") := by
  constructor
  · constructor
    · rintro ⟨s, he⟩
      refine ⟨fun h => ?_, fun h => ?_, fun h => ?_⟩
      · rw [nrmse_euclidean R T hd hs h] at he
        exact Except.noConfusion he
      · rw [nrmse_min_max R T hd hs h] at he
        exact Except.noConfusion he
      · rw [nrmse_mean_mode R T hd hs h] at he
        exact Except.noConfusion he
    · rintro ⟨h1, h2, h3⟩
      exact ⟨"Unsupported norm_type", nrmse_unsupported R T hd hs h1 h2 h3⟩
  · unfold nrmse
    rw [show strLower ("EUCLIDEAN") = strLower ("euclidean") from by decide]

/-- Witness for C5 with the unrecognized mode string bogus and the
case-insensitivity instance, at a concrete compatible pair. -/
theorem nrmse_mode_error_iff_witness :
    ((∃ s, nrmse ⟨Dtype.uint8, [1], [1]⟩ ⟨Dtype.uint8, [1], [2]⟩ ("bogus") =
        Except.error (Err.unsupportedNormMode s)) ↔
      (strLower ("bogus") ≠ "euclidean" ∧ strLower ("bogus") ≠ "min-max" ∧
        strLower ("bogus") ≠ "mean")) ∧
    nrmse ⟨Dtype.uint8, [1], [1]⟩ ⟨Dtype.uint8, [1], [2]⟩ ("EUCLIDEAN") =
      nrmse ⟨Dtype.uint8, [1], [1]⟩ ⟨Dtype.uint8, [1], [2]⟩ ("euclidean") :=
  nrmse_mode_error_iff ⟨Dtype.uint8, [1], [1]⟩ ⟨Dtype.uint8, [1], [2]⟩ rfl rfl ("bogus")

/-- C2: for a compatible pair with mse value m, `nrmse` returns the square
root of m divided by the denominator of the mode, computed from the reference
array: root-mean-square of R for euclidean, max minus min of R for
min-max, mean of R for mean. -/
theorem nrmse_is_root_mse_over_denominator (R T : Img) (m : ℚ)
    (hm : mse R T = Except.ok m) (mode : String) :
    (strLower mode = "euclidean" → nrmse R T mode =
      Except.ok (Real.sqrt (m : ℝ) /
        Real.sqrt ((mean (R.data.map fun x => x ^ 2) : ℚ) : ℝ))) ∧
    (strLower mode = "min-max" → nrmse R T mode =
      Except.ok (Real.sqrt (m : ℝ) /
        ((listMax R.data - listMin R.data : ℚ) : ℝ))) ∧
    (strLower mode = "mean" → nrmse R T mode =
      Except.ok (Real.sqrt (m : ℝ) / ((mean R.data : ℚ) : ℝ))) := by
  obtain ⟨hd, hs, hmv⟩ := mse_ok_inv hm
  subst hmv
  have hsq : (fun x : ℚ => x * x) = fun x => x ^ 2 := by
    funext x
    ring
  refine ⟨fun h => ?_, fun h => ?_, fun h => ?_⟩
  · rw [nrmse_euclidean R T hd hs h, hsq]
  · exact nrmse_min_max R T hd hs h
  · exact nrmse_mean_mode R T hd hs h

/-- Witness for C2: the min-max normalization at a concrete pair. -/
theorem nrmse_is_root_mse_over_denominator_witness :
    nrmse ⟨Dtype.float64, [2], [1, 3]⟩ ⟨Dtype.float64, [2], [1, 3]⟩ ("min-max") =
      Except.ok (Real.sqrt ((0 : ℚ) : ℝ) /
        ((listMax [(1 : ℚ), 3] - listMin [(1 : ℚ), 3] : ℚ) : ℝ)) :=
  (nrmse_is_root_mse_over_denominator _ _ 0
    (by rw [mse_ok rfl rfl, mse_vals_self]) ("min-max")).2.1 (by decide)

theorem psnr_given_range (R T : Img) (hd : R.dtype = T.dtype)
    (hs : R.shape = T.shape) (d : ℚ) :
    psnr R T (some d) = Except.ok (10 * Real.logb 10
      ((d : ℝ) ^ 2 / ((mse_vals R.data T.data : ℚ) : ℝ))) := by
  unfold psnr
  rw [assert_compatible_ok hd hs, ok_bind]
  simp only [as_floats_fst, as_floats_snd, pure_bind]
  rw [mse_float R T hs]
  rfl

theorem psnr_unknown (R T : Img) (hd : R.dtype = T.dtype)
    (hs : R.shape = T.shape) (ht : dtype_range R.dtype = none) :
    psnr R T none = Except.error Err.unknownDtype := by
  unfold psnr
  rw [assert_compatible_ok hd hs, ok_bind]
  simp only [ht]
  rfl

theorem psnr_range_exceeded (R T : Img) (hd : R.dtype = T.dtype)
    (hs : R.shape = T.shape) {dmin dmax : ℚ}
    (ht : dtype_range R.dtype = some (dmin, dmax))
    (hout : listMax R.data > dmax ∨ listMin R.data < dmin) :
    psnr R T none = Except.error (Err.outOfRange out_of_range_msg) := by
  unfold psnr
  rw [assert_compatible_ok hd hs, ok_bind]
  simp only [ht]
  rw [if_pos hout]
  rfl

theorem psnr_in_range (R T : Img) (hd : R.dtype = T.dtype)
    (hs : R.shape = T.shape) {dmin dmax : ℚ}
    (ht : dtype_range R.dtype = some (dmin, dmax))
    (h1 : listMax R.data ≤ dmax) (h2 : dmin ≤ listMin R.data) :
    psnr R T none = Except.ok (10 * Real.logb 10
      ((((if 0 ≤ listMin R.data then dmax else dmax - dmin) : ℚ) : ℝ) ^ 2 /
        ((mse_vals R.data T.data : ℚ) : ℝ))) := by
  unfold psnr
  rw [assert_compatible_ok hd hs, ok_bind]
  simp only [ht]
  rw [if_neg (by rw [not_or]; exact ⟨not_lt.mpr h1, not_lt.mpr h2⟩)]
  by_cases h0 : 0 ≤ listMin R.data
  · rw [if_pos h0, if_pos h0]
    simp only [as_floats_fst, as_floats_snd, pure_bind]
    rw [mse_float R T hs]
    rfl
  · rw [if_neg h0, if_neg h0]
    simp only [as_floats_fst, as_floats_snd, pure_bind]
    rw [mse_float R T hs]
    rfl

/-- C3: for a compatible pair whose reference values lie within the dtype
range table entry, `psnr` with no supplied dynamic range infers the range
as dmax when the reference minimum is at least zero and dmax - dmin
otherwise, and returns 10 log10 of the squared range over the mse. -/
theorem psnr_inferred_dynamic_range (R T : Img) (m : ℚ)
    (hm : mse R T = Except.ok m) {dmin dmax : ℚ}
    (ht : dtype_range R.dtype = some (dmin, dmax))
    (h1 : listMax R.data ≤ dmax) (h2 : dmin ≤ listMin R.data) :
    psnr R T none = Except.ok (10 * Real.logb 10
      ((((if 0 ≤ listMin R.data then dmax else dmax - dmin) : ℚ) : ℝ) ^ 2 /
        (m : ℝ))) := by
  obtain ⟨hd, hs, hmv⟩ := mse_ok_inv hm
  subst hmv
  exact psnr_in_range R T hd hs ht h1 h2

/-- Witness for C3 at a one-element 8-bit image within range. -/
theorem psnr_inferred_dynamic_range_witness :
    psnr ⟨Dtype.uint8, [1], [2]⟩ ⟨Dtype.uint8, [1], [2]⟩ none =
      Except.ok (10 * Real.logb 10
        ((((if 0 ≤ listMin [(2 : ℚ)] then (255 : ℚ) else 255 - 0) : ℚ) : ℝ) ^ 2 /
          ((0 : ℚ) : ℝ))) :=
  psnr_inferred_dynamic_range ⟨Dtype.uint8, [1], [2]⟩ ⟨Dtype.uint8, [1], [2]⟩ 0
    (by rw [mse_ok rfl rfl, mse_vals_self]) rfl
    (by norm_num [listMax]) (by norm_num [listMin])

/-- C6: for a compatible pair whose reference dtype has a range table
entry, `psnr` with no supplied dynamic range fails with the
OutOfRangeError exactly when the actual maximum exceeds dmax or the actual
minimum undercuts dmin, and the message directs the caller to manually
specify the dynamic range. -/
theorem psnr_out_of_range_iff (R T : Img) (hd : R.dtype = T.dtype)
    (hs : R.shape = T.shape) {dmin dmax : ℚ}
    (ht : dtype_range R.dtype = some (dmin, dmax)) :
    (psnr R T none = Except.error (Err.outOfRange out_of_range_msg) ↔
      (listMax R.data > dmax ∨ listMin R.data < dmin)) ∧
    (∃ s1, out_of_range_msg = s1 ++ "manually specify the dynamic_range") := by
  refine ⟨⟨fun he => ?_, fun hout => psnr_range_exceeded R T hd hs ht hout⟩, ?_⟩
  · by_contra hc
    rw [not_or] at hc
    obtain ⟨h1, h2⟩ := hc
    rw [psnr_in_range R T hd hs ht (not_lt.mp h1) (not_lt.mp h2)] at he
    exact Except.noConfusion he
  · exact ⟨"im_true has intensity values outside the range expected for its data type.  Please ", rfl⟩

/-- Witness for C6 at an 8-bit reference holding the value 300. -/
theorem psnr_out_of_range_iff_witness :
    (psnr ⟨Dtype.uint8, [1], [300]⟩ ⟨Dtype.uint8, [1], [0]⟩ none =
        Except.error (Err.outOfRange out_of_range_msg) ↔
      (listMax [(300 : ℚ)] > 255 ∨ listMin [(300 : ℚ)] < 0)) ∧
    (∃ s1, out_of_range_msg = s1 ++ "manually specify the dynamic_range") :=
  psnr_out_of_range_iff ⟨Dtype.uint8, [1], [300]⟩ ⟨Dtype.uint8, [1], [0]⟩ rfl rfl rfl

/-- C7: for a compatible pair whose reference dtype has no entry in the
dtype range table, `psnr` with no supplied dynamic range fails with the
UnknownDtypeError. -/
theorem psnr_unknown_dtype (R T : Img) (hd : R.dtype = T.dtype)
    (hs : R.shape = T.shape) (ht : dtype_range R.dtype = none) :
    psnr R T none = Except.error Err.unknownDtype :=
  psnr_unknown R T hd hs ht

/-- Witness for C7 at a float16 pair, a dtype with no table entry. -/
theorem psnr_unknown_dtype_witness :
    psnr ⟨Dtype.float16, [1], [0]⟩ ⟨Dtype.float16, [1], [0]⟩ none =
      Except.error Err.unknownDtype :=
  psnr_unknown_dtype ⟨Dtype.float16, [1], [0]⟩ ⟨Dtype.float16, [1], [0]⟩ rfl rfl rfl

/-- C10: when the caller supplies the dynamic range, `psnr` on a
compatible pair returns the logarithmic ratio directly, so it never
consults the dtype range table and never fails with UnknownDtypeError or
OutOfRangeError, whatever the dtype or the data values. -/
theorem psnr_supplied_range_no_lookup (R T : Img) (hd : R.dtype = T.dtype)
    (hs : R.shape = T.shape) (d : ℚ) :
    psnr R T (some d) = Except.ok (10 * Real.logb 10
      ((d : ℝ) ^ 2 / ((mse_vals R.data T.data : ℚ) : ℝ))) :=
  psnr_given_range R T hd hs d

/-- Witness for C10 at a float16 image (no table entry) holding the value
300 (outside every tabulated range), with a supplied dynamic range. -/
theorem psnr_supplied_range_no_lookup_witness :
    psnr ⟨Dtype.float16, [1], [300]⟩ ⟨Dtype.float16, [1], [0]⟩ (some 5) =
      Except.ok (10 * Real.logb 10
        ((((5 : ℚ)) : ℝ) ^ 2 / ((mse_vals [(300 : ℚ)] [(0 : ℚ)] : ℚ) : ℝ))) :=
  psnr_supplied_range_no_lookup ⟨Dtype.float16, [1], [300]⟩ ⟨Dtype.float16, [1], [0]⟩
    rfl rfl 5

theorem foldl_max_const {xs : List ℚ} {c : ℚ} (hc : ∀ x ∈ xs, x = c)
    {a : ℚ} (ha : a = c) : xs.foldl max a = c := by
  induction xs generalizing a with
  | nil => exact ha
  | cons x xs ih =>
    rw [List.foldl_cons]
    refine ih (fun y hy => hc y (List.mem_cons_of_mem _ hy)) ?_
    rw [ha, hc x (List.mem_cons_self _ _)]
    exact max_self c

theorem foldl_min_const {xs : List ℚ} {c : ℚ} (hc : ∀ x ∈ xs, x = c)
    {a : ℚ} (ha : a = c) : xs.foldl min a = c := by
  induction xs generalizing a with
  | nil => exact ha
  | cons x xs ih =>
    rw [List.foldl_cons]
    refine ih (fun y hy => hc y (List.mem_cons_of_mem _ hy)) ?_
    rw [ha, hc x (List.mem_cons_self _ _)]
    exact min_self c

theorem const_range_zero (l : List ℚ) (c : ℚ) (hc : ∀ x ∈ l, x = c) :
    listMax l - listMin l = 0 := by
  cases l with
  | nil => simp [listMax, listMin]
  | cons x xs =>
    have hx : x = c := hc x (List.mem_cons_self _ _)
    have htail : ∀ y ∈ xs, y = c := fun y hy => hc y (List.mem_cons_of_mem _ hy)
    show xs.foldl max x - xs.foldl min x = 0
    rw [foldl_max_const htail hx, foldl_min_const htail hx, sub_self]

/-- C8: a zero divisor raises no error.  For a constant reference array
the min-max denominator is zero yet `nrmse` still returns an ok value
dividing by it; with a zero mean the mean mode does the same; and for any
pair of identical images (same dtype, shape and data, hence mse zero)
`psnr` divides the squared dynamic range by zero and still returns an ok
value. -/
theorem zero_denominator_no_error (R T : Img) (c : ℚ)
    (hc : ∀ x ∈ R.data, x = c) (m : ℚ) (hm : mse R T = Except.ok m) :
    (nrmse R T ("min-max") = Except.ok (Real.sqrt (m : ℝ) /
        ((listMax R.data - listMin R.data : ℚ) : ℝ)) ∧
      listMax R.data - listMin R.data = 0) ∧
    (mean R.data = 0 → nrmse R T ("mean") =
      Except.ok (Real.sqrt (m : ℝ) / ((0 : ℚ) : ℝ))) ∧
    (∀ (S U : Img) (d : ℚ), S.dtype = U.dtype → S.shape = U.shape →
      S.data = U.data → psnr S U (some d) =
        Except.ok (10 * Real.logb 10 ((d : ℝ) ^ 2 / ((0 : ℚ) : ℝ)))) := by
  obtain ⟨hd, hs, hmv⟩ := mse_ok_inv hm
  subst hmv
  refine ⟨⟨nrmse_min_max R T hd hs (by decide), const_range_zero R.data c hc⟩,
    fun h0 => ?_, fun S U d hd2 hs2 hdata => ?_⟩
  · rw [nrmse_mean_mode R T hd hs (by decide), h0]
  · rw [psnr_given_range S U hd2 hs2 d, hdata, mse_vals_self]

/-- Witness for C8 at the zero-mean constant reference [0, 0] (so both
nrmse conjuncts are exercised with their zero denominators) and, for the
psnr conjunct, at the non-constant identical pair [1, 2]. -/
theorem zero_denominator_no_error_witness :
    (nrmse ⟨Dtype.float64, [2], [0, 0]⟩ ⟨Dtype.float64, [2], [0, 0]⟩ ("min-max") =
        Except.ok (Real.sqrt ((0 : ℚ) : ℝ) /
          ((listMax [(0 : ℚ), 0] - listMin [(0 : ℚ), 0] : ℚ) : ℝ)) ∧
      listMax [(0 : ℚ), 0] - listMin [(0 : ℚ), 0] = 0) ∧
    (nrmse ⟨Dtype.float64, [2], [0, 0]⟩ ⟨Dtype.float64, [2], [0, 0]⟩ ("mean") =
      Except.ok (Real.sqrt ((0 : ℚ) : ℝ) / ((0 : ℚ) : ℝ))) ∧
    (psnr ⟨Dtype.uint8, [2], [1, 2]⟩ ⟨Dtype.uint8, [2], [1, 2]⟩ (some 7) =
      Except.ok (10 * Real.logb 10 (((7 : ℚ) : ℝ) ^ 2 / ((0 : ℚ) : ℝ)))) :=
  ⟨(zero_denominator_no_error ⟨Dtype.float64, [2], [0, 0]⟩ ⟨Dtype.float64, [2], [0, 0]⟩
      0 (by simp) 0 (by rw [mse_ok rfl rfl, mse_vals_self])).1,
    (zero_denominator_no_error ⟨Dtype.float64, [2], [0, 0]⟩ ⟨Dtype.float64, [2], [0, 0]⟩
      0 (by simp) 0 (by rw [mse_ok rfl rfl, mse_vals_self])).2.1 (by norm_num [mean]),
    (zero_denominator_no_error ⟨Dtype.float64, [2], [0, 0]⟩ ⟨Dtype.float64, [2], [0, 0]⟩
      0 (by simp) 0 (by rw [mse_ok rfl rfl, mse_vals_self])).2.2
      ⟨Dtype.uint8, [2], [1, 2]⟩ ⟨Dtype.uint8, [2], [1, 2]⟩ 7 rfl rfl rfl⟩

end SimpleMetrics
